import Mathlib

/-!
Verification of the Pong OpenGL renderer (src/OpenGLTutorial/src/main.cpp)
against its natural-language specification, through a shallow embedding.

Modelling conventions:
* Float arithmetic is embedded over the rationals: every property checked here
  is an exact-arithmetic property (the spec phrases them as exact up to
  floating-point epsilon).
* GL object names (GLuint handles) are natural numbers; the C conversions
  between int and GLuint are explicit (toGLuint, toCInt).
* GPU buffer data stores are modelled at 4-byte-word granularity: every buffer
  in this program holds float or GLuint data, both 4 bytes wide, and every
  byte offset and byte size passed to the GL upload calls is a multiple of 4.
* Calls into GLFW (window creation, input polling, timing) and GLAD loading
  are external collaborators; they are modelled as succeeding, since their
  failure paths in main return before any of the code under study runs.
* Results reported by the GL driver (compile status, link status, fresh object
  names) are supplied by an oracle structure, so the control flow of the
  source can be examined on every driver outcome.
-/

namespace Pong

/-- One 4-byte word of a GPU buffer data store. The constructor f holds a
float value (as an exact rational), u holds a GLuint value. vtx marks a
circle-vertex float produced by cosf and sinf in gen2DCircleArray
(main.cpp:275-276), kept uninterpreted because no claim inspects its numeric
value (the tag is its position in the vertex array). undef marks a word that
glBufferData copied from past the end of its source array: indeterminate
adjacent memory. -/
inductive Word where
  | f (val : ℚ)
  | u (val : Nat)
  | vtx (arrayIdx : Nat)
  | undef
  deriving DecidableEq

/-- A GL buffer object data store: its allocated content, one entry per
4-byte word (so the allocated byte size is 4 * content.length). -/
structure BufferObj where
  content : List Word
  deriving DecidableEq

/-- The GL buffer-object state: buffer name to allocated data store. -/
abbrev Store := List (Nat × BufferObj)

/-- Lookup of a buffer name in the store. -/
def Store.lookup? : Store → Nat → Option BufferObj
  | [], _ => none
  | p :: rest, bo => if p.1 = bo then some p.2 else Store.lookup? rest bo

/-- Write a buffer data store under a name: replaces the existing entry when
the name is present, creates the entry otherwise. -/
def Store.setBuf : Store → Nat → BufferObj → Store
  | [], bo, b => [(bo, b)]
  | p :: rest, bo, b => if p.1 = bo then (bo, b) :: rest else p :: Store.setBuf rest bo b

/-- The words glBufferData or glBufferSubData copies from a source array when
asked for needed words: words past the end of the source array are
indeterminate adjacent memory (Word.undef). -/
def uploadWords (needed : Nat) (src : List Word) : List Word :=
  (src ++ List.replicate (needed - src.length) Word.undef).take needed

/-- Semantics of glBufferSubData on a data store: replace the words of c at
positions o to o + d.length - 1 with d, every other word and the allocation
unchanged. -/
def writeRange (c : List Word) (o : Nat) (d : List Word) : List Word :=
  c.take o ++ d ++ c.drop (o + d.length)

/-- Embeds genBufferObject (main.cpp:201-207): glGenBuffers returned the fresh
name bo, glBindBuffer binds it, and glBufferData allocates and fills
noElements * sizeof(T) bytes copied from the source array, where
wordsPerElem = sizeof(T) / 4 (1 for float and GLuint, 2 for vec2). -/
def genBufferObject (s : Store) (bo : Nat) (noElements wordsPerElem : Nat)
    (src : List Word) : Store :=
  Store.setBuf s bo ⟨uploadWords (noElements * wordsPerElem) src⟩

/-- Embeds updateData (main.cpp:210-215): glBindBuffer then glBufferSubData
with byte offset 4 * offsetWords and byte size noElements * sizeof(T).
glBufferSubData overwrites the range in place when it fits inside the existing
data store, and raises GL_INVALID_VALUE leaving the store untouched when it
does not; in neither case does it reallocate the buffer. -/
def updateData (s : Store) (bo : Nat) (offsetWords noElements wordsPerElem : Nat)
    (src : List Word) : Store :=
  match Store.lookup? s bo with
  | none => s
  | some b =>
    let d := uploadWords (noElements * wordsPerElem) src
    if offsetWords + d.length ≤ b.content.length then
      Store.setBuf s bo ⟨writeRange b.content offsetWords d⟩
    else s

/-- A homogeneous point, for checking what the projection matrix does. -/
structure Vec4 where
  x : ℚ
  y : ℚ
  z : ℚ
  w : ℚ
  deriving DecidableEq

/-- The 4 x 4 float array mat of setOrthographicProjection (main.cpp:164-169):
field eIJ is mat[I][J]. glUniformMatrix4fv is passed transpose = GL_FALSE, so
source row I is interpreted as column I of the GL matrix. -/
structure Mat4 where
  (e00 e01 e02 e03 : ℚ)
  (e10 e11 e12 e13 : ℚ)
  (e20 e21 e22 e23 : ℚ)
  (e30 e31 e32 e33 : ℚ)
  deriving DecidableEq

/-- The matrix literal built by setOrthographicProjection (main.cpp:164-169). -/
def orthoMat (left right bottom top near far : ℚ) : Mat4 where
  e00 := 2 / (right - left)
  e01 := 0
  e02 := 0
  e03 := 0
  e10 := 0
  e11 := 2 / (top - bottom)
  e12 := 0
  e13 := 0
  e20 := 0
  e21 := 0
  e22 := -2 / (far - near)
  e23 := 0
  e30 := -(right + left) / (right - left)
  e31 := -(top + bottom) / (top - bottom)
  e32 := -(far + near) / (far - near)
  e33 := 1

/-- Action of the uploaded matrix on a homogeneous point, following the
column-major interpretation glUniformMatrix4fv applies when transpose is
GL_FALSE: clip component i is the sum over J of mat[J][i] * v_J. -/
def Mat4.transform (m : Mat4) (v : Vec4) : Vec4 where
  x := m.e00 * v.x + m.e10 * v.y + m.e20 * v.z + m.e30 * v.w
  y := m.e01 * v.x + m.e11 * v.y + m.e21 * v.z + m.e31 * v.w
  z := m.e02 * v.x + m.e12 * v.y + m.e22 * v.z + m.e32 * v.w
  w := m.e03 * v.x + m.e13 * v.y + m.e23 * v.z + m.e33 * v.w

/-- Observable GL side effects issued by the embedded code. -/
inductive GLEffect where
  | viewport (x y : Int) (w h : Nat)
  | useProgram (prog : Nat)
  | uniformMatrix4 (prog : Nat) (name : String) (m : Mat4)
  | attachShader (prog shader : Nat)
  | linkProgram (prog : Nat)
  | deleteShaderObj (shader : Nat)
  | deleteBuffer (buf : Nat)
  | deleteVertexArray (vao : Nat)
  | deleteProgram (prog : Nat)
  | drawElems (vao count instances : Nat)
  deriving DecidableEq

/-- C conversion of a signed int value to GLuint (reduction modulo 2 ^ 32),
applied where the source passes an int shader-program handle to a GL entry
point taking GLuint. -/
def toGLuint (i : Int) : Nat := (i % (2 ^ 32)).toNat

/-- C conversion of a GLuint value to a 32-bit twos-complement int parameter. -/
def toCInt (n : Nat) : Int :=
  if n % 2 ^ 32 < 2 ^ 31 then ((n % 2 ^ 32 : Nat) : Int)
  else ((n % 2 ^ 32 : Nat) : Int) - 2 ^ 32

/-- Embeds setOrthographicProjection (main.cpp:162-174): build the matrix,
bind the program (bindShader at main.cpp:156-159 is glUseProgram) and upload
the matrix under the uniform name "projection". The source performs the three
divisions unconditionally: the function is total, performs no degeneracy
check, and has no error path. -/
def setOrthographicProjection (shaderProgram : Int)
    (left right bottom top near far : ℚ) : List GLEffect :=
  [GLEffect.useProgram (toGLuint shaderProgram),
   GLEffect.uniformMatrix4 (toGLuint shaderProgram) "projection"
     (orthoMat left right bottom top near far)]

/-- One vertex-attribute-pointer configuration recorded by setAttPointer
(main.cpp:218-228) into the vertex array that is bound at the time of the
call: attribute index, component count, stride and offset in words, and the
instancing divisor (0 when the divisor branch at main.cpp:224-227 is not
taken). -/
structure AttribConfig where
  vao : Nat
  buffer : Nat
  index : Nat
  size : Nat
  strideWords : Nat
  offsetWords : Nat
  divisor : Nat
  deriving DecidableEq

/-- The VAO structure of the source (main.cpp:185-191): the vertex-array name
and the names of its four buffer objects. -/
structure VAO where
  val : Nat
  posVBO : Nat
  offsetVBO : Nat
  sizeVBO : Nat
  EBO : Nat
  deriving DecidableEq

/-- The mutable process-wide state the embedded code touches: the file-scope
globals of main.cpp together with the GL buffer store and the recorded
attribute configurations. globalShaderProgram embeds the file-scope
GLuint shaderProgram (main.cpp:13): zero-initialized, and never assigned
anywhere in the program, because main.cpp:394 declares a shadowing local of
the same name. -/
structure RenderState where
  scrWidth : Nat
  scrHeight : Nat
  globalShaderProgram : Nat
  store : Store
  attribs : List AttribConfig
  deriving DecidableEq

/-- Embeds setAttPointer (main.cpp:218-228) acting on the render state: binds
the buffer and records the attribute layout in the currently bound vertex
array vao. -/
def setAttPointer (s : RenderState) (vao bo idx size strideWords offsetWords divisor : Nat) :
    RenderState :=
  { s with attribs := s.attribs ++ [⟨vao, bo, idx, size, strideWords, offsetWords, divisor⟩] }

/-- updateData lifted to the render state: glBufferSubData touches only the
buffer data store. Vertex-array attribute configuration is separate GL state
that the call does not read or write. -/
def updateDataR (s : RenderState) (bo : Nat) (offsetWords noElements wordsPerElem : Nat)
    (src : List Word) : RenderState :=
  { s with store := updateData s.store bo offsetWords noElements wordsPerElem src }

/-- The per-instance offset data a glDrawElementsInstanced call issued through
draw (main.cpp:231-235) observes for a VAO: the content of the offset buffer
of that VAO at draw time (GL reads buffer state live). -/
def drawObservedOffsets (s : RenderState) (vao : VAO) : Option (List Word) :=
  (Store.lookup? s.store vao.offsetVBO).map BufferObj.content

/-- Embeds frameBufferSizeCallback (main.cpp:294-302): glViewport, store the
new dimensions into the globals, then recompute the orthographic matrix over
(0, width, 0, height, 0, 1) and upload it. The shaderProgram in scope at
main.cpp:301 is the file-scope global. -/
def frameBufferSizeCallback (s : RenderState) (width height : Nat) :
    RenderState × List GLEffect :=
  ({ s with scrWidth := width, scrHeight := height },
   GLEffect.viewport 0 0 width height ::
     setOrthographicProjection (toCInt s.globalShaderProgram)
       0 (width : ℚ) 0 (height : ℚ) 0 1)

/-- Index triples written by the loop of gen2DCircleArray (main.cpp:273-285):
iteration i writes indices[3i], indices[3i+1], indices[3i+2] = 0, i+1, i+2. -/
def circleIndicesLoop : Nat → List Nat
  | 0 => []
  | n + 1 => circleIndicesLoop n ++ [0, n + 1, n + 2]

/-- The index array gen2DCircleArray leaves in memory: the loop above,
followed by the unconditional overwrite
indices[(noTriangles - 1) * 3 + 2] = 1 at main.cpp:288. -/
def gen2DCircleIndices (noTriangles : Nat) : List Nat :=
  (circleIndicesLoop noTriangles).set (3 * (noTriangles - 1) + 2) 1

/-- The vertex array of gen2DCircleArray (main.cpp:262-276): noTriangles + 1
vec2 vertices. Vertex 0 is the origin; vertex i + 1 holds radius * cosf and
radius * sinf values, kept uninterpreted (Word.vtx tags the float array
position) because no claim inspects them. -/
def circleVertexWords (noTriangles : Nat) : List Word :=
  Word.f 0 :: Word.f 0 ::
    (List.range noTriangles).flatMap
      (fun i => [Word.vtx ((i + 1) * 2), Word.vtx ((i + 1) * 2 + 1)])

/-- Outcomes of the native GL calls during one run of genShaderProgram: the
nonzero object names returned by glCreateShader and glCreateProgram, the
compile and link results and info logs reported by the driver, and the value
that the uninitialized local variable success of genShaderProgram
(main.cpp:140-141) happens to hold. -/
structure ShaderOracle where
  vertexCompileOk : Bool
  fragmentCompileOk : Bool
  vertexHandle : Nat
  fragmentHandle : Nat
  programHandle : Nat
  linkOk : Bool
  vertexLog : String
  fragmentLog : String
  uninitSuccess : Int

/-- Embeds genShader (main.cpp:99-120): compile the stage, query
GL_COMPILE_STATUS (a valid glGetShaderiv use: the first argument is a shader
object, so the out variable is written), print the info log and return -1 on
failure, and return the shader object name on success. -/
def genShader (compileOk : Bool) (handle : Nat) (log : String) : Int × List String :=
  if compileOk then ((handle : Int), [])
  else (-1, ["Error in shader compilation: " ++ log])

/-- Semantics of glGetShaderiv for its out parameter: the queried value is
written only when the first argument names a shader object. Called on a
program object the call generates GL_INVALID_OPERATION and makes no change to
the contents of params, so the out variable keeps whatever value it held
before the call. -/
def glGetShaderiv (objIsShader : Bool) (queried : Int) (prev : Int) : Int :=
  if objIsShader then queried else prev

/-- Result of one run of genShaderProgram: the returned int, the diagnostics
printed to stdout, and the GL effects issued. -/
structure ProgramResult where
  ret : Int
  printed : List String
  effects : List GLEffect
  deriving DecidableEq

/-- Embeds genShaderProgram (main.cpp:123-153). The check at main.cpp:142
calls glGetShaderiv, not glGetProgramiv, on the program object: an invalid
operation, so the local variable success keeps the indeterminate value of an
uninitialized int (the oracle field uninitSuccess). The branch at
main.cpp:143-147 therefore tests that indeterminate value, not the link
status. -/
def genShaderProgram (o : ShaderOracle) : ProgramResult :=
  let shaderProgram : Int := (o.programHandle : Int)
  let v := genShader o.vertexCompileOk o.vertexHandle o.vertexLog
  let fg := genShader o.fragmentCompileOk o.fragmentHandle o.fragmentLog
  if v.1 = -1 ∨ fg.1 = -1 then
    { ret := -1, printed := v.2 ++ fg.2, effects := [] }
  else
    let linkEffects := [GLEffect.attachShader o.programHandle o.vertexHandle,
                        GLEffect.attachShader o.programHandle o.fragmentHandle,
                        GLEffect.linkProgram o.programHandle]
    let success := glGetShaderiv false (if o.linkOk then 1 else 0) o.uninitSuccess
    if success = 0 then
      { ret := -1,
        printed := v.2 ++ fg.2 ++ ["Error in shader linking: <indeterminate log>"],
        effects := linkEffects }
    else
      { ret := shaderProgram, printed := v.2 ++ fg.2,
        effects := linkEffects ++ [GLEffect.deleteShaderObj o.vertexHandle,
                                   GLEffect.deleteShaderObj o.fragmentHandle] }

/-- One scene-setup buffer upload, as issued by main: the destination buffer,
the element count passed to genBufferObject, the word width of the element
type, and the element count actually present in the supplied source array. -/
structure UploadCall where
  buffer : Nat
  noElements : Nat
  wordsPerElem : Nat
  srcElems : Nat
  deriving DecidableEq

/-- Record of one genBufferObject call: srcElems is computed from the real
length of the supplied source array. -/
def mkUpload (buffer noElements wordsPerElem : Nat) (src : List Word) : UploadCall :=
  { buffer := buffer, noElements := noElements, wordsPerElem := wordsPerElem,
    srcElems := src.length / wordsPerElem }

/-- The startup window dimensions (main.cpp:10-11). -/
def scrWidth0 : Nat := 800

/-- The startup window dimensions (main.cpp:10-11). -/
def scrHeight0 : Nat := 600

/-- paddleVertices (main.cpp:400-405): 8 floats, 4 corner vec2 positions. -/
def paddleVertices : List Word :=
  [Word.f (1 / 2), Word.f (1 / 2), Word.f (-(1 / 2)), Word.f (1 / 2),
   Word.f (-(1 / 2)), Word.f (-(1 / 2)), Word.f (1 / 2), Word.f (-(1 / 2))]

/-- paddleIndices (main.cpp:408-411): 6 GLuints, two triangles. -/
def paddleIndices : List Word :=
  [Word.u 0, Word.u 1, Word.u 2, Word.u 2, Word.u 3, Word.u 0]

/-- paddleOffsets as assigned at main.cpp:414-415 under the startup
dimensions: (35, scrHeight / 2) and (scrWidth - 35, scrHeight / 2), two vec2
values, 4 words. -/
def paddleOffsets0 : List Word :=
  [Word.f 35, Word.f ((scrHeight0 : ℚ) / 2),
   Word.f ((scrWidth0 : ℚ) - 35), Word.f ((scrHeight0 : ℚ) / 2)]

/-- paddleSizes (main.cpp:418-420): one vec2, (PADDLE_WIDTH, PADDLE_HEIGHT) =
(10, 100). -/
def paddleSizes : List Word := [Word.f 10, Word.f 100]

/-- ballOffsets as assigned at main.cpp:453: (scrWidth / 2, scrHeight / 2). -/
def ballOffsets0 : List Word :=
  [Word.f ((scrWidth0 : ℚ) / 2), Word.f ((scrHeight0 : ℚ) / 2)]

/-- ballSizes (main.cpp:456-458): one vec2, (BALL_DIAMETER, BALL_DIAMETER) =
(16, 16). -/
def ballSizes : List Word := [Word.f 16, Word.f 16]

/-- The paddle VAO as created by main (main.cpp:423-424), with GL object names
modelled as consecutive fresh ids: vertex array 1, buffers 1 to 4 in creation
order (posVBO, offsetVBO, sizeVBO, EBO). -/
def paddleVAO0 : VAO := { val := 1, posVBO := 1, offsetVBO := 2, sizeVBO := 3, EBO := 4 }

/-- The ball VAO as created by main (main.cpp:461-462): vertex array 2,
buffers 5 to 8 in creation order. -/
def ballVAO0 : VAO := { val := 2, posVBO := 5, offsetVBO := 6, sizeVBO := 7, EBO := 8 }

/-- Result of running main from after window creation and GLAD loading up to
and through the first render-loop iteration. -/
structure MainResult where
  state : RenderState
  paddleVAO : VAO
  ballVAO : VAO
  localShaderProgram : Nat
  printed : List String
  uploads : List UploadCall
  effects : List GLEffect
  enteredRenderLoop : Bool

/-- Embeds main (main.cpp:364-516) from after window creation and GLAD
loading (external collaborators modelled as succeeding; their failure paths at
main.cpp:378-389 return before any shader or buffer work) up to and through
the first render-loop iteration.

Key control-flow fact mirrored from the source: there is no branch of any kind
between the genShaderProgram call at main.cpp:394 and the render loop at
main.cpp:484, so the loop is entered no matter what genShaderProgram returned,
and enteredRenderLoop is unconditionally true.

The local GLuint shaderProgram of main.cpp:394 shadows the file-scope global
of main.cpp:13; the global stays 0 in the render state. The first loop
iteration runs with the initial offsets (no key pressed, so processInput at
main.cpp:305-340 leaves them unchanged) and issues the two draw calls of
main.cpp:502-503. -/
def mainRun (o : ShaderOracle) : MainResult :=
  let pr := genShaderProgram o
  let localProg : Nat := toGLuint pr.ret
  let noTriangles := 50
  let ballVerts := circleVertexWords noTriangles
  let ballIdx := (gen2DCircleIndices noTriangles).map Word.u
  let s0 : RenderState :=
    { scrWidth := scrWidth0, scrHeight := scrHeight0, globalShaderProgram := 0,
      store := [], attribs := [] }
  let st1 := genBufferObject s0.store paddleVAO0.posVBO (2 * 4) 1 paddleVertices
  let st2 := genBufferObject st1 paddleVAO0.offsetVBO 2 2 paddleOffsets0
  let st3 := genBufferObject st2 paddleVAO0.sizeVBO 1 2 paddleSizes
  let st4 := genBufferObject st3 paddleVAO0.EBO (2 * 4) 1 paddleIndices
  let st5 := genBufferObject st4 ballVAO0.posVBO (2 * (noTriangles + 1)) 1 ballVerts
  let st6 := genBufferObject st5 ballVAO0.offsetVBO 1 2 ballOffsets0
  let st7 := genBufferObject st6 ballVAO0.sizeVBO 1 2 ballSizes
  let st8 := genBufferObject st7 ballVAO0.EBO (3 * noTriangles) 1 ballIdx
  let s1 : RenderState := { s0 with store := st8 }
  let s2 := setAttPointer s1 paddleVAO0.val paddleVAO0.posVBO 0 2 2 0 0
  let s3 := setAttPointer s2 paddleVAO0.val paddleVAO0.offsetVBO 1 2 2 0 1
  let s4 := setAttPointer s3 paddleVAO0.val paddleVAO0.sizeVBO 2 2 2 0 2
  let s5 := setAttPointer s4 ballVAO0.val ballVAO0.posVBO 0 2 2 0 0
  let s6 := setAttPointer s5 ballVAO0.val ballVAO0.offsetVBO 1 2 2 0 1
  let s7 := setAttPointer s6 ballVAO0.val ballVAO0.sizeVBO 2 2 2 0 1
  let s8 := updateDataR s7 paddleVAO0.offsetVBO 0 2 2 paddleOffsets0
  let s9 := updateDataR s8 ballVAO0.offsetVBO 0 1 2 ballOffsets0
  { state := s9
    paddleVAO := paddleVAO0
    ballVAO := ballVAO0
    localShaderProgram := localProg
    printed := pr.printed
    uploads :=
      [ mkUpload paddleVAO0.posVBO (2 * 4) 1 paddleVertices,
        mkUpload paddleVAO0.offsetVBO 2 2 paddleOffsets0,
        mkUpload paddleVAO0.sizeVBO 1 2 paddleSizes,
        mkUpload paddleVAO0.EBO (2 * 4) 1 paddleIndices,
        mkUpload ballVAO0.posVBO (2 * (noTriangles + 1)) 1 ballVerts,
        mkUpload ballVAO0.offsetVBO 1 2 ballOffsets0,
        mkUpload ballVAO0.sizeVBO 1 2 ballSizes,
        mkUpload ballVAO0.EBO (3 * noTriangles) 1 ballIdx ]
    effects :=
      GLEffect.viewport 0 0 scrWidth0 scrHeight0 ::
        setOrthographicProjection (toCInt localProg)
          0 (scrWidth0 : ℚ) 0 (scrHeight0 : ℚ) 0 1 ++
        [GLEffect.useProgram (toGLuint (toCInt localProg)),
         GLEffect.drawElems paddleVAO0.val (3 * 2) 2,
         GLEffect.drawElems ballVAO0.val (3 * noTriangles) 1]
    enteredRenderLoop := true }

/-- Embeds cleanup(VAO) (main.cpp:250-257): the four glDeleteBuffers calls,
then glDeleteVertexArrays. -/
def cleanupVAO (vao : VAO) : List GLEffect :=
  [GLEffect.deleteBuffer vao.posVBO, GLEffect.deleteBuffer vao.offsetVBO,
   GLEffect.deleteBuffer vao.sizeVBO, GLEffect.deleteBuffer vao.EBO,
   GLEffect.deleteVertexArray vao.val]

/-- The shutdown sequence of main (main.cpp:510-512): cleanup(paddleVAO),
cleanup(ballVAO), deleteShader(shaderProgram). -/
def mainShutdown (paddleVAO ballVAO : VAO) (shaderProgram : Nat) : List GLEffect :=
  cleanupVAO paddleVAO ++ cleanupVAO ballVAO ++ [GLEffect.deleteProgram shaderProgram]

/-- Event a occurs at a strictly earlier position than event b in trace tr. -/
def occursBefore (tr : List GLEffect) (a b : GLEffect) : Prop :=
  ∃ i j, ∃ hi : i < tr.length, ∃ hj : j < tr.length,
    i < j ∧ tr.get ⟨i, hi⟩ = a ∧ tr.get ⟨j, hj⟩ = b

/-- A run in which both stages compile, the link succeeds, and the
uninitialized success variable of genShaderProgram happens to hold a nonzero
value: the lucky normal run, producing program handle 3. -/
def okOracle : ShaderOracle :=
  { vertexCompileOk := true, fragmentCompileOk := true, vertexHandle := 1,
    fragmentHandle := 2, programHandle := 3, linkOk := true,
    vertexLog := "", fragmentLog := "", uninitSuccess := 1 }

/-- A run in which the vertex stage fails to compile (for example main.vs
missing, so readFile returns the empty string, which does not compile). -/
def vertexFailOracle : ShaderOracle :=
  { okOracle with vertexCompileOk := false, vertexLog := "vertex stage error" }

/-- A run in which both stages compile but the native link step FAILS, while
the uninitialized success variable happens to hold a nonzero value. -/
def linkFailOracle : ShaderOracle := { okOracle with linkOk := false }

/-- A small concrete render state for exercising updateData: one allocated
offset buffer (name 2, 4 words: the two paddle offset vec2 values) and one
recorded instanced attribute configuration over it. -/
def updateWitnessState : RenderState :=
  { scrWidth := 800, scrHeight := 600, globalShaderProgram := 0,
    store := [(2, ⟨[Word.f 35, Word.f 300, Word.f 765, Word.f 300]⟩)],
    attribs := [⟨1, 2, 1, 2, 2, 0, 1⟩] }

/-- New paddle offsets after one frame of movement: the concrete update data
for the updateData witness. -/
def newPaddleOffsets : List Word :=
  [Word.f 35, Word.f 310, Word.f 765, Word.f 290]

/-! ## Store and writeRange lemmas -/

theorem lookup_setBuf_self (s : Store) (bo : Nat) (b : BufferObj) :
    Store.lookup? (Store.setBuf s bo b) bo = some b := by
  induction s with
  | nil => simp [Store.setBuf, Store.lookup?]
  | cons p rest ih =>
    by_cases h : p.1 = bo
    · simp [Store.setBuf, Store.lookup?, h]
    · simp [Store.setBuf, Store.lookup?, h, ih]

theorem lookup_setBuf_ne (s : Store) (bo j : Nat) (b : BufferObj) (h : j ≠ bo) :
    Store.lookup? (Store.setBuf s bo b) j = Store.lookup? s j := by
  induction s with
  | nil => simp [Store.setBuf, Store.lookup?, Ne.symm h]
  | cons p rest ih =>
    by_cases hp : p.1 = bo
    · simp [Store.setBuf, Store.lookup?, hp, Ne.symm h]
    · simp [Store.setBuf, Store.lookup?, hp, ih]

theorem setBuf_self_of_lookup (s : Store) (bo : Nat) (b : BufferObj)
    (h : Store.lookup? s bo = some b) : Store.setBuf s bo b = s := by
  induction s with
  | nil => simp [Store.lookup?] at h
  | cons p rest ih =>
    obtain ⟨k, v⟩ := p
    by_cases hp : k = bo
    · simp [Store.lookup?, hp] at h
      simp [Store.setBuf, hp, h]
    · simp [Store.lookup?, hp] at h
      simp [Store.setBuf, hp, ih h]

theorem length_writeRange (c d : List Word) (o : Nat) (h : o + d.length ≤ c.length) :
    (writeRange c o d).length = c.length := by
  simp only [writeRange, List.length_append, List.length_take, List.length_drop]
  omega

theorem take_writeRange (c d : List Word) (o : Nat) (h : o + d.length ≤ c.length) :
    (writeRange c o d).take o = c.take o := by
  have hlen : (c.take o).length = o := by
    simp only [List.length_take]
    omega
  rw [writeRange, List.append_assoc, List.take_left' hlen]

theorem drop_writeRange (c d : List Word) (o : Nat) (h : o + d.length ≤ c.length) :
    (writeRange c o d).drop (o + d.length) = c.drop (o + d.length) := by
  have hlen : (c.take o ++ d).length = o + d.length := by
    simp only [List.length_append, List.length_take]
    omega
  rw [writeRange, List.drop_left' hlen]

theorem writeRange_writeRange (c d : List Word) (o : Nat) (h : o + d.length ≤ c.length) :
    writeRange (writeRange c o d) o d = writeRange c o d := by
  calc writeRange (writeRange c o d) o d
      = (writeRange c o d).take o ++ d ++ (writeRange c o d).drop (o + d.length) := rfl
    _ = c.take o ++ d ++ c.drop (o + d.length) := by
        rw [take_writeRange c d o h, drop_writeRange c d o h]
    _ = writeRange c o d := rfl

theorem uploadWords_of_le (needed : Nat) (src : List Word) (h : needed ≤ src.length) :
    uploadWords needed src = src.take needed := by
  simp [uploadWords, Nat.sub_eq_zero_of_le h]

/-! ## Circle index array lemmas -/

theorem length_circleIndicesLoop (n : Nat) : (circleIndicesLoop n).length = 3 * n := by
  induction n with
  | zero => rfl
  | succ m ih =>
    simp only [circleIndicesLoop, List.length_append, ih, List.length_cons,
      List.length_nil]
    omega

theorem mem_circleIndicesLoop_le (n : Nat) (a : Nat) (h : a ∈ circleIndicesLoop n) :
    a ≤ n + 1 := by
  induction n with
  | zero => simp [circleIndicesLoop] at h
  | succ m ih =>
    simp only [circleIndicesLoop, List.mem_append, List.mem_cons,
      List.mem_singleton, List.not_mem_nil] at h
    rcases h with h | h | h | h | h
    · exact Nat.le_trans (ih h) (by omega)
    · omega
    · omega
    · omega
    · exact absurd h (by simp)

theorem gen2DCircleIndices_succ (m : Nat) :
    gen2DCircleIndices (m + 1) = circleIndicesLoop m ++ [0, m + 1, 1] := by
  have hlen : (circleIndicesLoop m).length = 3 * m := length_circleIndicesLoop m
  show (circleIndicesLoop m ++ [0, m + 1, m + 2]).set (3 * (m + 1 - 1) + 2) 1 = _
  rw [show 3 * (m + 1 - 1) + 2 = (circleIndicesLoop m).length + 2 by omega,
    List.set_append_right _ _ (by omega)]
  simp

/-! ## Claim theorems -/

/-- C9: for every noTriangles at least 1, gen2DCircleArray overwrites the
final index slot with 1 (the last triangle becomes (0, noTriangles, 1)), and
as a result every index in the produced array is at most noTriangles, so it
refers to one of the noTriangles + 1 generated vertices, for every triangle
count. The last conjunct shows the overwrite is what repairs the topology:
the loop alone had left the out-of-range index noTriangles + 1 behind. -/
theorem circle_fan_indices_in_range (n : Nat) (h : 1 ≤ n) :
    (gen2DCircleIndices n).length = 3 * n ∧
    (gen2DCircleIndices n).drop (3 * (n - 1)) = [0, n, 1] ∧
    (∀ a ∈ gen2DCircleIndices n, a < n + 1) ∧
    (n + 1) ∈ circleIndicesLoop n := by
  obtain ⟨m, rfl⟩ : ∃ m, n = m + 1 := ⟨n - 1, by omega⟩
  have hsucc := gen2DCircleIndices_succ m
  have hlen := length_circleIndicesLoop m
  refine ⟨?_, ?_, ?_, ?_⟩
  · rw [hsucc]
    simp only [List.length_append, hlen, List.length_cons, List.length_nil]
    omega
  · rw [hsucc, show 3 * (m + 1 - 1) = (circleIndicesLoop m).length by omega,
      List.drop_left]
  · intro a ha
    rw [hsucc] at ha
    rcases List.mem_append.mp ha with ha | ha
    · have := mem_circleIndicesLoop_le m a ha
      omega
    · simp only [List.mem_cons, List.not_mem_nil, or_false] at ha
      omega
  · show m + 1 + 1 ∈ circleIndicesLoop (m + 1)
    simp [circleIndicesLoop]

/-- Witness for C9 at the triangle count the program uses (noTriangles = 50,
main.cpp:449). -/
theorem circle_fan_indices_in_range_witness :
    (gen2DCircleIndices 50).length = 3 * 50 ∧
    (gen2DCircleIndices 50).drop (3 * (50 - 1)) = [0, 50, 1] ∧
    (∀ a ∈ gen2DCircleIndices 50, a < 50 + 1) ∧
    (50 + 1) ∈ circleIndicesLoop 50 :=
  circle_fan_indices_in_range 50 (by decide)

/-- C3 counterexample: with bounds (left, right, bottom, top, near, far) =
(0, 1, 0, 1, 1, 3) the matrix maps (left, bottom, near) to clip z = -3, not
-1, and maps (right, top, far) to clip z = -5, not 1: the claim fails as
stated (the x and y components do behave as claimed; the z convention does
not). -/
theorem orthoMat_corner_mapping_counterexample :
    ((orthoMat 0 1 0 1 1 3).transform ⟨0, 0, 1, 1⟩).z = -3 ∧
    ((orthoMat 0 1 0 1 1 3).transform ⟨0, 0, 1, 1⟩).z ≠ -1 ∧
    ((orthoMat 0 1 0 1 1 3).transform ⟨1, 1, 3, 1⟩).z = -5 ∧
    ((orthoMat 0 1 0 1 1 3).transform ⟨1, 1, 3, 1⟩).z ≠ 1 := by
  refine ⟨?_, ?_, ?_, ?_⟩ <;> norm_num [orthoMat, Mat4.transform]

/-- C3 amended: for all bounds with right distinct from left, top from
bottom, and far from near, the matrix maps (left, bottom, MINUS near) to
(-1, -1, -1) and (right, top, MINUS far) to (1, 1, 1) exactly: the standard
OpenGL convention, in which the eye looks down the negative z axis, so the
plane z = -near is the near clip plane. -/
theorem orthoMat_maps_box_to_clip_cube
    (left right bottom top near far : ℚ)
    (hx : right ≠ left) (hy : top ≠ bottom) (hz : far ≠ near) :
    (orthoMat left right bottom top near far).transform ⟨left, bottom, -near, 1⟩
        = ⟨-1, -1, -1, 1⟩ ∧
    (orthoMat left right bottom top near far).transform ⟨right, top, -far, 1⟩
        = ⟨1, 1, 1, 1⟩ := by
  have h1 : right - left ≠ 0 := sub_ne_zero.mpr hx
  have h2 : top - bottom ≠ 0 := sub_ne_zero.mpr hy
  have h3 : far - near ≠ 0 := sub_ne_zero.mpr hz
  constructor <;>
    · simp only [orthoMat, Mat4.transform, Vec4.mk.injEq]
      refine ⟨?_, ?_, ?_, ?_⟩ <;> field_simp <;> ring

/-- Witness for C3 amended at the startup projection bounds
(0, 800, 0, 600, 0, 1) of main.cpp:395. -/
theorem orthoMat_maps_box_to_clip_cube_witness :
    (orthoMat 0 800 0 600 0 1).transform ⟨0, 0, -0, 1⟩ = ⟨-1, -1, -1, 1⟩ ∧
    (orthoMat 0 800 0 600 0 1).transform ⟨800, 600, -1, 1⟩ = ⟨1, 1, 1, 1⟩ :=
  orthoMat_maps_box_to_clip_cube 0 800 0 600 0 1
    (by norm_num) (by norm_num) (by norm_num)

/-- C4 counterexample: with the collapsed bounds right = left = 0 the
operation does not fail and surfaces nothing: it computes the matrix (the
divisions are performed on a zero denominator) and still binds the program
and uploads the result. No error value exists anywhere in its result type. -/
theorem setOrthographicProjection_degenerate_counterexample :
    GLEffect.uniformMatrix4 3 "projection" (orthoMat 0 0 0 600 0 1)
      ∈ setOrthographicProjection 3 0 0 0 600 0 1 ∧
    setOrthographicProjection 3 0 0 0 600 0 1 ≠ [] := by
  constructor
  · simp [setOrthographicProjection, toGLuint]
  · simp [setOrthographicProjection]

/-- C4 amended: when any of the three differences is zero the operation does
not fail with any error: the source has no degeneracy check and no error
path, so the call computes the (degenerate) matrix, binds the program and
uploads it exactly as in the nondegenerate case. -/
theorem setOrthographicProjection_no_degeneracy_check
    (prog : Int) (left right bottom top near far : ℚ)
    (hdeg : right - left = 0 ∨ top - bottom = 0 ∨ far - near = 0) :
    setOrthographicProjection prog left right bottom top near far =
      [GLEffect.useProgram (toGLuint prog),
       GLEffect.uniformMatrix4 (toGLuint prog) "projection"
         (orthoMat left right bottom top near far)] := rfl

/-- Witness for C4 amended at collapsed horizontal bounds. -/
theorem setOrthographicProjection_no_degeneracy_check_witness :
    setOrthographicProjection 3 0 0 0 600 0 1 =
      [GLEffect.useProgram (toGLuint 3),
       GLEffect.uniformMatrix4 (toGLuint 3) "projection" (orthoMat 0 0 0 600 0 1)] :=
  setOrthographicProjection_no_degeneracy_check 3 0 0 0 600 0 1 (Or.inl (by norm_num))

/-- C1 (code bug): when the vertex stage fails to compile, a diagnostic is
printed and genShaderProgram returns -1, but main (main.cpp:394-395) never
checks the result: the invalid handle, (GLuint)(-1) = 4294967295, is bound by
the setOrthographicProjection call at startup, the render loop is entered,
and both draw calls of the first frame are issued under the invalid program.
The process does not terminate before the render loop. -/
theorem startup_failure_not_fatal :
    (mainRun vertexFailOracle).printed =
      ["Error in shader compilation: vertex stage error"] ∧
    (mainRun vertexFailOracle).localShaderProgram = 4294967295 ∧
    (mainRun vertexFailOracle).enteredRenderLoop = true ∧
    GLEffect.useProgram 4294967295 ∈ (mainRun vertexFailOracle).effects ∧
    GLEffect.drawElems 1 6 2 ∈ (mainRun vertexFailOracle).effects ∧
    GLEffect.drawElems 2 150 1 ∈ (mainRun vertexFailOracle).effects := by
  refine ⟨?_, ?_, ?_, ?_, ?_, ?_⟩ <;> decide

/-- C5 (code bug): both stages compile and the native link step FAILS, yet
with the uninitialized success variable holding a typical nonzero value the
check at main.cpp:142-147 (a glGetShaderiv call on a program object, which
cannot report link status) does not fire: genShaderProgram prints no
diagnostic, returns the program handle 3 instead of the -1 sentinel, and
deletes the two stage objects as if the link had succeeded. -/
theorem link_failure_not_detected :
    (genShaderProgram linkFailOracle).ret = 3 ∧
    (genShaderProgram linkFailOracle).ret ≠ -1 ∧
    (genShaderProgram linkFailOracle).printed = [] ∧
    GLEffect.linkProgram 3 ∈ (genShaderProgram linkFailOracle).effects ∧
    GLEffect.deleteShaderObj 1 ∈ (genShaderProgram linkFailOracle).effects ∧
    GLEffect.deleteShaderObj 2 ∈ (genShaderProgram linkFailOracle).effects := by
  refine ⟨?_, ?_, ?_, ?_, ?_, ?_⟩ <;> decide

/-- C2 (code bug): on a resize to 1024 x 768 after a successful startup that
produced program handle 3, the callback does store the new width and height
and does recompute the matrix over (0, 1024, 0, 768, 0, 1) — but it uploads
it to program 0, the never-assigned file-scope shaderProgram global
(main.cpp:13), because the local declaration at main.cpp:394 shadows it. The
program that every draw call uses is 3; its projection uniform is never
re-uploaded by the callback. -/
theorem resize_uploads_to_wrong_program :
    (frameBufferSizeCallback (mainRun okOracle).state 1024 768).1.scrWidth = 1024 ∧
    (frameBufferSizeCallback (mainRun okOracle).state 1024 768).1.scrHeight = 768 ∧
    (frameBufferSizeCallback (mainRun okOracle).state 1024 768).2 =
      [GLEffect.viewport 0 0 1024 768,
       GLEffect.useProgram 0,
       GLEffect.uniformMatrix4 0 "projection" (orthoMat 0 1024 0 768 0 1)] ∧
    (mainRun okOracle).localShaderProgram = 3 ∧
    GLEffect.useProgram 3 ∈ (mainRun okOracle).effects := by
  refine ⟨by decide, by decide, rfl, by decide, ?_⟩
  have heff : (mainRun okOracle).effects =
      [GLEffect.viewport 0 0 800 600, GLEffect.useProgram 3,
       GLEffect.uniformMatrix4 3 "projection" (orthoMat 0 800 0 600 0 1),
       GLEffect.useProgram 3, GLEffect.drawElems 1 6 2,
       GLEffect.drawElems 2 150 1] := rfl
  rw [heff]
  simp

/-- C7: under the startup 800 x 600 viewport the uploaded matrix has scale
terms 2/800 and 2/600 (uploaded to the draw program at startup); the resize
callback to 1024 x 768 uploads a matrix whose scale terms are 2/1024 and
2/768 with the translation terms recomputed by the same formulas, and leaves
the buffer store (in particular the paddle and ball offset and size buffers)
and every attribute configuration exactly as they were. -/
theorem resize_updates_matrix_not_buffers :
    (orthoMat 0 800 0 600 0 1).e00 = 2 / 800 ∧
    (orthoMat 0 800 0 600 0 1).e11 = 2 / 600 ∧
    GLEffect.uniformMatrix4 3 "projection" (orthoMat 0 800 0 600 0 1)
      ∈ (mainRun okOracle).effects ∧
    (orthoMat 0 1024 0 768 0 1).e00 = 2 / 1024 ∧
    (orthoMat 0 1024 0 768 0 1).e11 = 2 / 768 ∧
    (orthoMat 0 1024 0 768 0 1).e30 = -(1024 + 0) / (1024 - 0) ∧
    (orthoMat 0 1024 0 768 0 1).e31 = -(768 + 0) / (768 - 0) ∧
    (orthoMat 0 1024 0 768 0 1).e32 = -(1 + 0) / (1 - 0) ∧
    GLEffect.uniformMatrix4 0 "projection" (orthoMat 0 1024 0 768 0 1)
      ∈ (frameBufferSizeCallback (mainRun okOracle).state 1024 768).2 ∧
    (frameBufferSizeCallback (mainRun okOracle).state 1024 768).1.store
      = (mainRun okOracle).state.store ∧
    (frameBufferSizeCallback (mainRun okOracle).state 1024 768).1.attribs
      = (mainRun okOracle).state.attribs := by
  have heff : (mainRun okOracle).effects =
      [GLEffect.viewport 0 0 800 600, GLEffect.useProgram 3,
       GLEffect.uniformMatrix4 3 "projection" (orthoMat 0 800 0 600 0 1),
       GLEffect.useProgram 3, GLEffect.drawElems 1 6 2,
       GLEffect.drawElems 2 150 1] := rfl
  have hcb : (frameBufferSizeCallback (mainRun okOracle).state 1024 768).2 =
      [GLEffect.viewport 0 0 1024 768, GLEffect.useProgram 0,
       GLEffect.uniformMatrix4 0 "projection" (orthoMat 0 1024 0 768 0 1)] := rfl
  refine ⟨by norm_num [orthoMat], by norm_num [orthoMat], ?_,
    by norm_num [orthoMat], by norm_num [orthoMat], rfl, rfl, rfl, ?_, rfl, rfl⟩
  · rw [heff]
    simp
  · rw [hcb]
    simp

set_option maxRecDepth 100000 in
/-- C10 (code bug): the paddle index-buffer upload (main.cpp:439) passes
noElements = 2 * 4 = 8 for the 6-element paddleIndices array: glBufferData
copies 32 bytes from a 24-byte array, reading 8 bytes past its end, and the
resulting GL buffer ends in two indeterminate words. Every one of the other
seven scene-setup uploads does pass a count equal to the number of elements
in its source array. -/
theorem paddle_ebo_upload_overreads :
    (mainRun okOracle).uploads.getD 3 ⟨0, 0, 0, 0⟩ =
      ⟨paddleVAO0.EBO, 8, 1, 6⟩ ∧
    ¬ (∀ u ∈ (mainRun okOracle).uploads, u.noElements = u.srcElems) ∧
    (∀ u ∈ (mainRun okOracle).uploads,
      u.buffer ≠ paddleVAO0.EBO → u.noElements = u.srcElems) ∧
    Word.undef ∈
      ((Store.lookup? (mainRun okOracle).state.store paddleVAO0.EBO).map
        BufferObj.content).getD [] := by
  refine ⟨?_, ?_, ?_, ?_⟩ <;> decide

/-- C6: updateData on an already-allocated instanced attribute buffer
overwrites the requested sub-range in place: the buffer keeps its allocation
(same name, same word length, so no reallocation happens), every other buffer
and every recorded attribute-pointer configuration is untouched, a subsequent
draw observes exactly the updated content, and repeating the identical update
changes nothing further (idempotent re-upload: twice yields the state of
once). -/
theorem updateData_in_place (s : RenderState) (bo : Nat) (o n wpe : Nat)
    (src : List Word) (b : BufferObj)
    (hb : Store.lookup? s.store bo = some b)
    (hsrc : n * wpe ≤ src.length)
    (hfit : o + n * wpe ≤ b.content.length) :
    Store.lookup? (updateDataR s bo o n wpe src).store bo
        = some ⟨writeRange b.content o (src.take (n * wpe))⟩ ∧
    (Store.lookup? (updateDataR s bo o n wpe src).store bo).map
        (fun bb => bb.content.length) = some b.content.length ∧
    (updateDataR s bo o n wpe src).attribs = s.attribs ∧
    (∀ j, j ≠ bo → Store.lookup? (updateDataR s bo o n wpe src).store j
        = Store.lookup? s.store j) ∧
    (∀ vao : VAO, vao.offsetVBO = bo →
      drawObservedOffsets (updateDataR s bo o n wpe src) vao
        = some (writeRange b.content o (src.take (n * wpe)))) ∧
    updateDataR (updateDataR s bo o n wpe src) bo o n wpe src
        = updateDataR s bo o n wpe src := by
  have hup : uploadWords (n * wpe) src = src.take (n * wpe) :=
    uploadWords_of_le _ _ hsrc
  have hdl : (src.take (n * wpe)).length = n * wpe := by
    simp only [List.length_take]
    omega
  have hfit2 : o + (src.take (n * wpe)).length ≤ b.content.length := by omega
  have hW : (writeRange b.content o (src.take (n * wpe))).length
      = b.content.length := length_writeRange _ _ _ hfit2
  have hstore : (updateDataR s bo o n wpe src).store
      = Store.setBuf s.store bo ⟨writeRange b.content o (src.take (n * wpe))⟩ := by
    simp only [updateDataR, updateData, hb, hup]
    rw [if_pos hfit2]
  have hlook2 : Store.lookup? (updateDataR s bo o n wpe src).store bo
      = some ⟨writeRange b.content o (src.take (n * wpe))⟩ := by
    rw [hstore]
    exact lookup_setBuf_self _ _ _
  refine ⟨hlook2, ?_, rfl, ?_, ?_, ?_⟩
  · rw [hlook2]
    simpa using hW
  · intro j hj
    rw [hstore]
    exact lookup_setBuf_ne _ _ _ _ hj
  · intro vao hv
    simp only [drawObservedOffsets, hv, hlook2]
    rfl
  · have hsame : updateData (updateDataR s bo o n wpe src).store bo o n wpe src
        = (updateDataR s bo o n wpe src).store := by
      simp only [updateData, hlook2, hup]
      rw [if_pos (by rw [hW]; exact hfit2)]
      rw [writeRange_writeRange _ _ _ hfit2]
      exact setBuf_self_of_lookup _ _ _ hlook2
    calc updateDataR (updateDataR s bo o n wpe src) bo o n wpe src
        = { updateDataR s bo o n wpe src with
            store := updateData (updateDataR s bo o n wpe src).store bo o n wpe src } := rfl
      _ = updateDataR s bo o n wpe src := by rw [hsame]

/-- Witness for C6: the paddle offset buffer of the concrete state
updateWitnessState, updated with one frame of new offsets
(updateData at main.cpp:497 with noElements = 2 vec2 elements at offset 0). -/
theorem updateData_in_place_witness :
    Store.lookup? updateWitnessState.store 2
        = some ⟨[Word.f 35, Word.f 300, Word.f 765, Word.f 300]⟩ ∧
    2 * 2 ≤ newPaddleOffsets.length ∧
    0 + 2 * 2 ≤ (BufferObj.mk [Word.f 35, Word.f 300, Word.f 765, Word.f 300]).content.length ∧
    (Store.lookup? (updateDataR updateWitnessState 2 0 2 2 newPaddleOffsets).store 2
        = some ⟨writeRange [Word.f 35, Word.f 300, Word.f 765, Word.f 300] 0
            (newPaddleOffsets.take (2 * 2))⟩ ∧
     (Store.lookup? (updateDataR updateWitnessState 2 0 2 2 newPaddleOffsets).store 2).map
        (fun bb => bb.content.length)
        = some (BufferObj.mk [Word.f 35, Word.f 300, Word.f 765, Word.f 300]).content.length ∧
     (updateDataR updateWitnessState 2 0 2 2 newPaddleOffsets).attribs
        = updateWitnessState.attribs ∧
     (∀ j, j ≠ 2 → Store.lookup? (updateDataR updateWitnessState 2 0 2 2 newPaddleOffsets).store j
        = Store.lookup? updateWitnessState.store j) ∧
     (∀ vao : VAO, vao.offsetVBO = 2 →
       drawObservedOffsets (updateDataR updateWitnessState 2 0 2 2 newPaddleOffsets) vao
        = some (writeRange [Word.f 35, Word.f 300, Word.f 765, Word.f 300] 0
            (newPaddleOffsets.take (2 * 2)))) ∧
     updateDataR (updateDataR updateWitnessState 2 0 2 2 newPaddleOffsets) 2 0 2 2 newPaddleOffsets
        = updateDataR updateWitnessState 2 0 2 2 newPaddleOffsets) :=
  ⟨rfl, by decide, by decide,
    updateData_in_place updateWitnessState 2 0 2 2 newPaddleOffsets
      ⟨[Word.f 35, Word.f 300, Word.f 765, Word.f 300]⟩ rfl (by decide) (by decide)⟩

/-- C8: in the shutdown trace of main, each geometry buffer has its position,
offset, size and index buffers released before its vertex-array binding; both
geometry buffers are destroyed before the shader program; and, the GL object
names being distinct (glGen* and glCreateProgram return unused names), every
owned resource is deleted exactly once. -/
theorem shutdown_releases_in_order_exactly_once (pv bv : VAO) (prog : Nat)
    (hnodup : [pv.posVBO, pv.offsetVBO, pv.sizeVBO, pv.EBO,
               bv.posVBO, bv.offsetVBO, bv.sizeVBO, bv.EBO].Nodup)
    (hvao : pv.val ≠ bv.val) :
    occursBefore (mainShutdown pv bv prog) (GLEffect.deleteBuffer pv.posVBO)
        (GLEffect.deleteVertexArray pv.val) ∧
    occursBefore (mainShutdown pv bv prog) (GLEffect.deleteBuffer pv.offsetVBO)
        (GLEffect.deleteVertexArray pv.val) ∧
    occursBefore (mainShutdown pv bv prog) (GLEffect.deleteBuffer pv.sizeVBO)
        (GLEffect.deleteVertexArray pv.val) ∧
    occursBefore (mainShutdown pv bv prog) (GLEffect.deleteBuffer pv.EBO)
        (GLEffect.deleteVertexArray pv.val) ∧
    occursBefore (mainShutdown pv bv prog) (GLEffect.deleteBuffer bv.posVBO)
        (GLEffect.deleteVertexArray bv.val) ∧
    occursBefore (mainShutdown pv bv prog) (GLEffect.deleteBuffer bv.offsetVBO)
        (GLEffect.deleteVertexArray bv.val) ∧
    occursBefore (mainShutdown pv bv prog) (GLEffect.deleteBuffer bv.sizeVBO)
        (GLEffect.deleteVertexArray bv.val) ∧
    occursBefore (mainShutdown pv bv prog) (GLEffect.deleteBuffer bv.EBO)
        (GLEffect.deleteVertexArray bv.val) ∧
    occursBefore (mainShutdown pv bv prog) (GLEffect.deleteVertexArray pv.val)
        (GLEffect.deleteProgram prog) ∧
    occursBefore (mainShutdown pv bv prog) (GLEffect.deleteVertexArray bv.val)
        (GLEffect.deleteProgram prog) ∧
    (∀ e ∈ mainShutdown pv bv prog, (mainShutdown pv bv prog).count e = 1) := by
  have hlen : (mainShutdown pv bv prog).length = 11 := rfl
  have hnd : (mainShutdown pv bv prog).Nodup := by
    simp only [List.nodup_cons, List.mem_cons, List.mem_singleton,
      List.not_mem_nil, or_false, List.nodup_nil, and_true, not_or] at hnodup
    show ([GLEffect.deleteBuffer pv.posVBO, GLEffect.deleteBuffer pv.offsetVBO,
        GLEffect.deleteBuffer pv.sizeVBO, GLEffect.deleteBuffer pv.EBO,
        GLEffect.deleteVertexArray pv.val,
        GLEffect.deleteBuffer bv.posVBO, GLEffect.deleteBuffer bv.offsetVBO,
        GLEffect.deleteBuffer bv.sizeVBO, GLEffect.deleteBuffer bv.EBO,
        GLEffect.deleteVertexArray bv.val,
        GLEffect.deleteProgram prog] : List GLEffect).Nodup
    simp only [List.nodup_cons, List.mem_cons, List.mem_singleton,
      List.not_mem_nil, or_false, List.nodup_nil, and_true,
      GLEffect.deleteBuffer.injEq, GLEffect.deleteVertexArray.injEq,
      not_or, reduceCtorEq, not_false_eq_true, true_and]
    tauto
  refine ⟨⟨0, 4, by omega, by omega, by omega, rfl, rfl⟩,
    ⟨1, 4, by omega, by omega, by omega, rfl, rfl⟩,
    ⟨2, 4, by omega, by omega, by omega, rfl, rfl⟩,
    ⟨3, 4, by omega, by omega, by omega, rfl, rfl⟩,
    ⟨5, 9, by omega, by omega, by omega, rfl, rfl⟩,
    ⟨6, 9, by omega, by omega, by omega, rfl, rfl⟩,
    ⟨7, 9, by omega, by omega, by omega, rfl, rfl⟩,
    ⟨8, 9, by omega, by omega, by omega, rfl, rfl⟩,
    ⟨4, 10, by omega, by omega, by omega, rfl, rfl⟩,
    ⟨9, 10, by omega, by omega, by omega, rfl, rfl⟩,
    fun e he => List.count_eq_one_of_mem hnd he⟩

/-- Witness for C8 at the concrete GL names of the modelled run: paddle VAO
(vertex array 1, buffers 1-4), ball VAO (vertex array 2, buffers 5-8),
program 3. -/
theorem shutdown_releases_in_order_exactly_once_witness :
    [paddleVAO0.posVBO, paddleVAO0.offsetVBO, paddleVAO0.sizeVBO, paddleVAO0.EBO,
     ballVAO0.posVBO, ballVAO0.offsetVBO, ballVAO0.sizeVBO, ballVAO0.EBO].Nodup ∧
    paddleVAO0.val ≠ ballVAO0.val ∧
    (occursBefore (mainShutdown paddleVAO0 ballVAO0 3)
        (GLEffect.deleteBuffer paddleVAO0.posVBO)
        (GLEffect.deleteVertexArray paddleVAO0.val) ∧
     occursBefore (mainShutdown paddleVAO0 ballVAO0 3)
        (GLEffect.deleteBuffer paddleVAO0.offsetVBO)
        (GLEffect.deleteVertexArray paddleVAO0.val) ∧
     occursBefore (mainShutdown paddleVAO0 ballVAO0 3)
        (GLEffect.deleteBuffer paddleVAO0.sizeVBO)
        (GLEffect.deleteVertexArray paddleVAO0.val) ∧
     occursBefore (mainShutdown paddleVAO0 ballVAO0 3)
        (GLEffect.deleteBuffer paddleVAO0.EBO)
        (GLEffect.deleteVertexArray paddleVAO0.val) ∧
     occursBefore (mainShutdown paddleVAO0 ballVAO0 3)
        (GLEffect.deleteBuffer ballVAO0.posVBO)
        (GLEffect.deleteVertexArray ballVAO0.val) ∧
     occursBefore (mainShutdown paddleVAO0 ballVAO0 3)
        (GLEffect.deleteBuffer ballVAO0.offsetVBO)
        (GLEffect.deleteVertexArray ballVAO0.val) ∧
     occursBefore (mainShutdown paddleVAO0 ballVAO0 3)
        (GLEffect.deleteBuffer ballVAO0.sizeVBO)
        (GLEffect.deleteVertexArray ballVAO0.val) ∧
     occursBefore (mainShutdown paddleVAO0 ballVAO0 3)
        (GLEffect.deleteBuffer ballVAO0.EBO)
        (GLEffect.deleteVertexArray ballVAO0.val) ∧
     occursBefore (mainShutdown paddleVAO0 ballVAO0 3)
        (GLEffect.deleteVertexArray paddleVAO0.val)
        (GLEffect.deleteProgram 3) ∧
     occursBefore (mainShutdown paddleVAO0 ballVAO0 3)
        (GLEffect.deleteVertexArray ballVAO0.val)
        (GLEffect.deleteProgram 3) ∧
     (∀ e ∈ mainShutdown paddleVAO0 ballVAO0 3,
        (mainShutdown paddleVAO0 ballVAO0 3).count e = 1)) :=
  ⟨by decide, by decide,
    shutdown_releases_in_order_exactly_once paddleVAO0 ballVAO0 3
      (by decide) (by decide)⟩

end Pong
